import Mathlib

/-!
Verification of the device-synchronization subsystem of the
Signal-over-Noise to-do application.

The definitions below are a shallow embedding of the TypeScript source:
  * `src/lib/sync.ts` (credential derivation, constant-time comparison),
  * `src/app/api/sync/route.ts` (GET = Pull, POST = Push),
  * `src/app/api/sync/setup/route.ts` (Setup, sync-code allocation loop),
  * the login route handler and the client `handleSyncData` callback.

The SHA-256 digest (hex-encoded) is modelled as an abstract parameter
`digest : String → String`; everything else is translated directly from
the source.  JavaScript timestamps (`Date.now()`) are `Nat`.
-/

namespace SignalSync

/-- A JSON field of a request/response body as JavaScript sees it:
absent (`undefined`), explicitly `null`, or an actual value.
Note that in JavaScript an *empty array is truthy*; only `undefined`
and `null` (and primitive falsy values, which are ill-typed here)
are falsy for the fields we model. -/
inductive JsField (α : Type) where
  | undef : JsField α
  | null : JsField α
  | val (a : α) : JsField α
deriving DecidableEq, Repr

/-- `SyncedTodo` from `src/lib/sync.ts`. -/
structure SyncedTodo where
  id : String
  text : String
  completed : Bool
  createdAt : Nat
  dateKey : String
  updatedAt : Nat
deriving DecidableEq, Repr

/-- `SyncedRecurringTask` from `src/lib/sync.ts`. -/
structure SyncedRecurringTask where
  id : String
  text : String
  weekdays : List Nat
  createdAt : Nat
  updatedAt : Nat
deriving DecidableEq, Repr

/-- `SyncedPauseLog` from `src/lib/sync.ts`. -/
structure SyncedPauseLog where
  id : String
  reason : String
  startTime : Nat
  endTime : Option Nat
  duration : Nat
  dateKey : String
deriving DecidableEq, Repr

/-- `SyncedTimerState` from `src/lib/sync.ts`. -/
structure SyncedTimerState where
  startTime : Option Nat
  pausedAt : Option Nat
  totalPausedTime : Nat
  isPaused : Bool
  dateKey : Option String
  updatedAt : Nat
deriving DecidableEq, Repr

/-- The Account Document (`SyncedData` in `src/lib/sync.ts`): one JSON
blob per sync code, holding auth metadata and the data snapshot. -/
structure SyncedData where
  syncCode : String
  pinHash : String
  salt : String
  createdAt : Nat
  lastSyncedAt : Nat
  todos : List SyncedTodo
  recurringTasks : List SyncedRecurringTask
  pauseLogs : List SyncedPauseLog
  timerState : Option SyncedTimerState
  recurringAddedDates : List String
deriving DecidableEq, Repr

/-- `hashPin` from `src/lib/sync.ts`: hex-encoded SHA-256 of `pin + salt`.
The hex-encoded digest is the abstract parameter `digest`. -/
def hashPin (digest : String → String) (pin salt : String) : String :=
  digest (pin ++ salt)

/-- `constantTimeCompare` from `src/lib/sync.ts`: on equal lengths, OR
together the xor of every pair of character codes and compare the result with
zero; on a length mismatch return `false` immediately. -/
def constantTimeCompare (a b : String) : Bool :=
  if a.length ≠ b.length then false
  else
    ((a.data.zip b.data).foldl
      (fun r p => r ||| (p.1.toNat ^^^ p.2.toNat)) 0) == 0

/-- `verifyPin` from `src/lib/sync.ts`. -/
def verifyPin (digest : String → String) (pin salt storedHash : String) : Bool :=
  constantTimeCompare (hashPin digest pin salt) storedHash

/-- `generateAuthToken` from `src/lib/sync.ts`: hex-encoded SHA-256 of
`syncCode + salt + 'auth'`. -/
def generateAuthToken (digest : String → String) (syncCode salt : String) : String :=
  digest (syncCode ++ salt ++ "auth")

/-- `verifyAuthToken` from `src/lib/sync.ts`. -/
def verifyAuthToken (digest : String → String) (token syncCode salt : String) : Bool :=
  constantTimeCompare token (generateAuthToken digest syncCode salt)

/-- Instrumented version of `constantTimeCompare`: the same computation,
additionally counting how many loop iterations are executed (the `Nat`
component).  The source's `for` loop always runs over every index `0 ≤ i
< a.length`; the fold here mirrors that body one-to-one. -/
def constantTimeCompareInstr (a b : String) : Bool × Nat :=
  if a.length ≠ b.length then (false, 0)
  else
    let acc := (a.data.zip b.data).foldl
      (fun acc p => (acc.1 ||| (p.1.toNat ^^^ p.2.toNat), acc.2 + 1)) (0, 0)
    (acc.1 == 0, acc.2)

/-- JavaScript `String.prototype.toUpperCase` (character-wise upper
casing, which is what it does on the ASCII codes at play here). -/
def jsToUpper (s : String) : String := ⟨s.data.map Char.toUpper⟩

/-- JavaScript `String.prototype.trim`: strip whitespace from both
ends. -/
def jsTrim (s : String) : String :=
  ⟨((s.data.dropWhile Char.isWhitespace).reverse.dropWhile
      Char.isWhitespace).reverse⟩

/-- JavaScript `s.startsWith(pat)`. -/
def jsStartsWith (s pat : String) : Bool := pat.data.isPrefixOf s.data

/-- Sync-code normalization, identical in the GET/POST/Login handlers:
`syncCode.toUpperCase().trim()`, then prepend `SIGNAL-` when missing. -/
def normalizeSyncCode (syncCode : String) : String :=
  let c := jsTrim (jsToUpper syncCode)
  if jsStartsWith c "SIGNAL-" then c else "SIGNAL-" ++ c

/-- Blob path used by every handler: `sync/${normalizedCode}.json`. -/
def blobKey (normalizedCode : String) : String :=
  "sync/" ++ normalizedCode ++ ".json"

/-- The Vercel Blob store, shallowly embedded as an association list from
blob path to Account Document. -/
def Store := List (String × SyncedData)

/-- `list({samePath}) + fetch`: read the document stored at a path. -/
def Store.get (s : Store) (k : String) : Option SyncedData :=
  (List.find? (fun kv => kv.1 == k) s).map (fun kv => kv.2)

/-- `put(path, body)`: overwrite the document stored at a path. -/
def Store.put (s : Store) (k : String) (v : SyncedData) : Store :=
  (k, v) :: List.filter (fun kv => !(kv.1 == k)) s

/-- A typed JSON value appearing in a response object we build. -/
inductive FieldVal where
  | todosV (t : List SyncedTodo)
  | recurringV (r : List SyncedRecurringTask)
  | pauseV (p : List SyncedPauseLog)
  | timerV (t : Option SyncedTimerState)
  | datesV (d : List String)
  | numV (n : Nat)
deriving DecidableEq, Repr

/-- The response object built by GET `/api/sync` on success
(`route.ts` lines 45–52): the document minus the sensitive fields. -/
def pullResponseFields (d : SyncedData) : List (String × FieldVal) :=
  [("todos", FieldVal.todosV d.todos),
   ("recurringTasks", FieldVal.recurringV d.recurringTasks),
   ("pauseLogs", FieldVal.pauseV d.pauseLogs),
   ("timerState", FieldVal.timerV d.timerState),
   ("recurringAddedDates", FieldVal.datesV d.recurringAddedDates),
   ("lastSyncedAt", FieldVal.numV d.lastSyncedAt)]

/-- Outcome of GET `/api/sync` (Pull). -/
inductive GetResult where
  | badRequest (msg : String)
  | notFound (msg : String)
  | ok (fields : List (String × FieldVal))
deriving DecidableEq, Repr

/-- Headers of a Pull request.  `none` models an absent header
(`request.headers.get` returning `null`). -/
structure GetReq where
  syncCodeHeader : Option String
  authTokenHeader : Option String
deriving DecidableEq, Repr

/-- GET `/api/sync` (Pull), from `src/app/api/sync/route.ts` lines 6–60.
The handler reads only the `x-sync-code` header; it performs no store
write.  (The body of the found blob is read through `Store.get`.) -/
def syncGet (store : Store) (req : GetReq) : GetResult :=
  match req.syncCodeHeader with
  | none => GetResult.badRequest "Sync code required"
  | some sc =>
    if sc = "" then GetResult.badRequest "Sync code required"
    else
      let normalizedCode := normalizeSyncCode sc
      match Store.get store (blobKey normalizedCode) with
      | none => GetResult.notFound "Sync data not found"
      | some d => GetResult.ok (pullResponseFields d)

/-- The body of a Push request: each snapshot field may be absent,
`null`, or present (`route.ts` line 120 destructures these five). -/
structure PushBody where
  todos : JsField (List SyncedTodo)
  recurringTasks : JsField (List SyncedRecurringTask)
  pauseLogs : JsField (List SyncedPauseLog)
  timerState : JsField SyncedTimerState
  recurringAddedDates : JsField (List String)
deriving DecidableEq, Repr

/-- A Push request: the two headers plus the JSON body. -/
structure PushReq where
  syncCodeHeader : Option String
  authTokenHeader : Option String
  body : PushBody
deriving DecidableEq, Repr

/-- The merge performed by POST `/api/sync` (`route.ts` lines 125–139):
auth fields copied from the existing document, `lastSyncedAt := now`,
and for the data fields the JavaScript expressions
  `todos || existingData.todos` (and likewise for `recurringTasks`,
  `pauseLogs`, `recurringAddedDates`): an array value — empty included —
  is truthy and replaces; `null`/`undefined` are falsy and preserve;
  `timerState !== undefined ? timerState : existingData.timerState`:
  an explicit `null` replaces the stored timer with `null`. -/
def pushMerge (existingData : SyncedData) (body : PushBody) (now : Nat) :
    SyncedData where
  syncCode := existingData.syncCode
  pinHash := existingData.pinHash
  salt := existingData.salt
  createdAt := existingData.createdAt
  lastSyncedAt := now
  todos :=
    match body.todos with
    | JsField.val t => t
    | _ => existingData.todos
  recurringTasks :=
    match body.recurringTasks with
    | JsField.val t => t
    | _ => existingData.recurringTasks
  pauseLogs :=
    match body.pauseLogs with
    | JsField.val t => t
    | _ => existingData.pauseLogs
  timerState :=
    match body.timerState with
    | JsField.undef => existingData.timerState
    | JsField.null => none
    | JsField.val t => some t
  recurringAddedDates :=
    match body.recurringAddedDates with
    | JsField.val t => t
    | _ => existingData.recurringAddedDates

/-- Outcome of POST `/api/sync` (Push). -/
inductive PostResult where
  | badRequest (msg : String)
  | unauthorized (msg : String)
  | notFound (msg : String)
  | ok (lastSyncedAt : Nat)
deriving DecidableEq, Repr

/-- POST `/api/sync` (Push), from `src/app/api/sync/route.ts` lines
63–158: header checks, normalization, lookup, auth-token verification,
merge, write.  Returns the store after the request and the response. -/
def syncPost (digest : String → String) (store : Store) (req : PushReq)
    (now : Nat) : Store × PostResult :=
  match req.syncCodeHeader with
  | none => (store, PostResult.badRequest "Sync code required")
  | some sc =>
    if sc = "" then (store, PostResult.badRequest "Sync code required")
    else
      match req.authTokenHeader with
      | none => (store, PostResult.unauthorized "Authentication required")
      | some tok =>
        if tok = "" then
          (store, PostResult.unauthorized "Authentication required")
        else
          let normalizedCode := normalizeSyncCode sc
          match Store.get store (blobKey normalizedCode) with
          | none => (store, PostResult.notFound "Sync data not found")
          | some existingData =>
            if verifyAuthToken digest tok normalizedCode existingData.salt then
              let updatedData := pushMerge existingData req.body now
              (Store.put store (blobKey normalizedCode) updatedData,
               PostResult.ok now)
            else
              (store, PostResult.unauthorized "Invalid authentication token")

/-- Body of a Login request (`{ syncCode, pin }`).  JavaScript's
`!syncCode || !pin` check treats the empty string as missing. -/
structure LoginReq where
  syncCode : String
  pin : String
deriving DecidableEq, Repr

/-- The `data` object of a successful Login response (login route
handler, response lines): the document minus `pinHash`/`salt`. -/
def loginResponseData (d : SyncedData) : List (String × FieldVal) :=
  [("todos", FieldVal.todosV d.todos),
   ("recurringTasks", FieldVal.recurringV d.recurringTasks),
   ("pauseLogs", FieldVal.pauseV d.pauseLogs),
   ("timerState", FieldVal.timerV d.timerState),
   ("recurringAddedDates", FieldVal.datesV d.recurringAddedDates),
   ("lastSyncedAt", FieldVal.numV d.lastSyncedAt)]

/-- The top-level object of a successful Login response:
`{ success, syncCode, authToken, data }`. -/
structure LoginOk where
  syncCode : String
  authToken : String
  dataFields : List (String × FieldVal)
deriving DecidableEq, Repr

/-- Outcome of the Login route. -/
inductive LoginResult where
  | badRequest (msg : String)
  | unauthorized (msg : String)
  | notFound (msg : String)
  | ok (r : LoginOk)
deriving DecidableEq, Repr

/-- The Login route handler: validate, normalize, look the document up,
verify the PIN, derive the auth token, and answer.  The handler performs
no store write, so the store component of the result is the input store
on every path. -/
def loginPost (digest : String → String) (store : Store) (req : LoginReq) :
    Store × LoginResult :=
  if req.syncCode = "" ∨ req.pin = "" then
    (store, LoginResult.badRequest "Sync code and PIN are required")
  else
    let normalizedCode := normalizeSyncCode req.syncCode
    match Store.get store (blobKey normalizedCode) with
    | none => (store, LoginResult.notFound "Sync code not found")
    | some syncedData =>
      if verifyPin digest req.pin syncedData.salt syncedData.pinHash then
        (store, LoginResult.ok
          { syncCode := normalizedCode
            authToken := generateAuthToken digest normalizedCode syncedData.salt
            dataFields := loginResponseData syncedData })
      else
        (store, LoginResult.unauthorized "Invalid PIN")

/-- `maxAttempts` of the Setup allocation loop. -/
def maxAttempts : Nat := 10

/-- The Setup do-while allocation loop (`setup/route.ts` lines 145–156),
with the candidate of attempt `i + 1` given by `cand i` (each call of
`generateSyncCode()`) and `existsInStore c = true` when `head` finds an
existing blob for `c`.  `fuel` is the number of re-entries the guard
`attempts < maxAttempts` still allows, i.e. `maxAttempts - 1 - i`; the
initial call is `allocLoop existsInStore cand 0 (maxAttempts - 1)`.
Returns the final values of `(attempts, syncCode)`. -/
def allocLoop (existsInStore : String → Bool) (cand : Nat → String) :
    Nat → Nat → Nat × String
  | i, fuel =>
    if existsInStore (cand i) then
      match fuel with
      | 0 => (i + 1, cand i)
      | fuel' + 1 => allocLoop existsInStore cand (i + 1) fuel'
    else (i + 1, cand i)

/-- Sync-code allocation in Setup (`setup/route.ts` lines 141–163): run
the loop, then `if (attempts >= maxAttempts)` answer the 500
allocation-exhausted error, otherwise proceed with the candidate. -/
def allocateSyncCode (existsInStore : String → Bool) (cand : Nat → String) :
    Except String String :=
  let r := allocLoop existsInStore cand 0 (maxAttempts - 1)
  if r.1 ≥ maxAttempts then Except.error "Failed to generate unique sync code"
  else Except.ok r.2

/-- A step of a client task (`TaskStep` in the client component). -/
structure TaskStep where
  id : String
  title : String
  completed : Bool
deriving DecidableEq, Repr

/-- The client-side `Todo` of the main component (part of the local
state that `handleSyncData` replaces). -/
structure Todo where
  id : String
  text : String
  completed : Bool
  createdAt : Nat
  dateKey : String
  important : Bool
  myDay : Bool
  dueDate : Option String
  steps : List TaskStep
  notes : String
  listId : String
  bucketId : String
  starred : Bool
  link : Option String
  hasFiles : Bool
  hasNote : Bool
  recurring : Option String
  reminder : Option String
deriving DecidableEq, Repr

/-- The client-side `RecurringTask`. -/
structure RecurringTask where
  id : String
  text : String
  weekdays : List Nat
deriving DecidableEq, Repr

/-- The client-side `PauseLog`. -/
structure PauseLog where
  id : String
  reason : String
  startTime : Nat
  endTime : Option Nat
  duration : Nat
  dateKey : String
deriving DecidableEq, Repr

/-- The client-side `TimerState` (a plain record, never `null`). -/
structure TimerState where
  startTime : Option Nat
  pausedAt : Option Nat
  totalPausedTime : Nat
  isPaused : Bool
  dateKey : Option String
deriving DecidableEq, Repr

/-- `LocalSyncState` from `src/lib/sync.ts`: the client credentials. -/
structure LocalSyncState where
  syncCode : String
  authToken : String
  lastSyncedAt : Nat
deriving DecidableEq, Repr

/-- The synchronized subset of the client component's state. -/
structure ClientData where
  todos : List Todo
  recurringTasks : List RecurringTask
  pauseLogs : List PauseLog
  timerState : TimerState
  recurringAddedDates : List String
deriving DecidableEq, Repr

/-- The `data` object handed to `handleSyncData` (the snapshot returned
by Login or Setup), field by field as JavaScript sees it. -/
structure SyncDataPayload where
  todos : JsField (List Todo)
  recurringTasks : JsField (List RecurringTask)
  pauseLogs : JsField (List PauseLog)
  timerState : JsField TimerState
  recurringAddedDates : JsField (List String)
deriving DecidableEq, Repr

/-- `handleSyncData` from the client component: store the new
credentials, then for each of the five data fields run
`if (data.field) set...(data.field)` — the setter fires only when the
field's value is truthy (a present non-null value; empty arrays are
truthy), otherwise the local value stays.  Returns the new credential
state and the new synchronized local state. -/
def handleSyncData (localData : ClientData) (newSyncState : LocalSyncState)
    (data : SyncDataPayload) : LocalSyncState × ClientData :=
  (newSyncState,
   { todos :=
       match data.todos with
       | JsField.val t => t
       | _ => localData.todos
     recurringTasks :=
       match data.recurringTasks with
       | JsField.val t => t
       | _ => localData.recurringTasks
     pauseLogs :=
       match data.pauseLogs with
       | JsField.val t => t
       | _ => localData.pauseLogs
     timerState :=
       match data.timerState with
       | JsField.val t => t
       | _ => localData.timerState
     recurringAddedDates :=
       match data.recurringAddedDates with
       | JsField.val t => t
       | _ => localData.recurringAddedDates })

/-! ### Concrete fixtures used to instantiate the theorems -/

/-- A concrete stored Account Document.  Its `pinHash` is the hash of
PIN 1234 under the identity digest, so Login with that PIN succeeds. -/
def sampleDoc : SyncedData where
  syncCode := "SIGNAL-ABCDEF"
  pinHash := "1234s0"
  salt := "s0"
  createdAt := 0
  lastSyncedAt := 5
  todos := []
  recurringTasks := []
  pauseLogs := []
  timerState := none
  recurringAddedDates := []

/-- A store holding exactly the sample account. -/
def sampleStore : Store := [(blobKey "SIGNAL-ABCDEF", sampleDoc)]

/-- A Push body carrying no field at all. -/
def emptyBody : PushBody where
  todos := JsField.undef
  recurringTasks := JsField.undef
  pauseLogs := JsField.undef
  timerState := JsField.undef
  recurringAddedDates := JsField.undef

/-- Ten distinct candidate sync codes, standing for the successive
outputs of the random generator during one Setup call. -/
def c2Cands : List String :=
  ["SIGNAL-AAAAAA", "SIGNAL-BBBBBB", "SIGNAL-CCCCCC", "SIGNAL-DDDDDD",
   "SIGNAL-EEEEEE", "SIGNAL-FFFFFF", "SIGNAL-GGGGGG", "SIGNAL-HHHHHH",
   "SIGNAL-JJJJJJ", "SIGNAL-KKKKKK"]

/-- The candidate drawn on attempt number i + 1. -/
def c2Cand (i : Nat) : String := c2Cands.getD i "SIGNAL-ZZZZZZ"

/-- An existence check under which the first nine candidates collide
with accounts already in the store and the tenth is free. -/
def c2Exists (c : String) : Bool := (c2Cands.take 9).contains c

/-- A running client timer. -/
def runningTimer : TimerState where
  startTime := some 100
  pausedAt := none
  totalPausedTime := 0
  isPaused := false
  dateKey := some "2026-01-01"

/-- The cleared client timer. -/
def clearedTimer : TimerState where
  startTime := none
  pausedAt := none
  totalPausedTime := 0
  isPaused := false
  dateKey := none

/-- Local client state whose timer is running. -/
def localWithTimer : ClientData where
  todos := []
  recurringTasks := []
  pauseLogs := []
  timerState := runningTimer
  recurringAddedDates := []

/-- Local client state whose timer is cleared. -/
def localCleared : ClientData where
  todos := []
  recurringTasks := []
  pauseLogs := []
  timerState := clearedTimer
  recurringAddedDates := []

/-- A server snapshot whose timer field is `null` and whose other
fields are (empty) arrays — exactly what Login returns for an account
that has never started a timer. -/
def nullTimerPayload : SyncDataPayload where
  todos := JsField.val []
  recurringTasks := JsField.val []
  pauseLogs := JsField.val []
  timerState := JsField.null
  recurringAddedDates := JsField.val []

/-- Concrete client credentials. -/
def sampleSyncState : LocalSyncState where
  syncCode := "SIGNAL-ABCDEF"
  authToken := "tok"
  lastSyncedAt := 5

/-! ### Helper lemmas about the constant-time comparison -/

theorem lor_eq_zero_iff (m n : Nat) : m ||| n = 0 ↔ m = 0 ∧ n = 0 := by
  constructor
  · intro h
    constructor
    · refine Nat.eq_of_testBit_eq fun i => ?_
      have ht := congrArg (fun x => Nat.testBit x i) h
      simp only [Nat.testBit_lor] at ht
      simp only [Nat.zero_testBit] at ht ⊢
      exact (Bool.or_eq_false_iff.mp ht).1
    · refine Nat.eq_of_testBit_eq fun i => ?_
      have ht := congrArg (fun x => Nat.testBit x i) h
      simp only [Nat.testBit_lor] at ht
      simp only [Nat.zero_testBit] at ht ⊢
      exact (Bool.or_eq_false_iff.mp ht).2
  · rintro ⟨rfl, rfl⟩; rfl

theorem char_eq_of_toNat_eq {c d : Char} (h : c.toNat = d.toNat) : c = d :=
  Char.eq_of_val_eq (UInt32.ext h)

theorem foldl_or_eq_zero (f : Char × Char → Nat) (l : List (Char × Char))
    (r : Nat) :
    (l.foldl (fun r p => r ||| f p) r = 0) ↔ (r = 0 ∧ ∀ p ∈ l, f p = 0) := by
  induction l generalizing r with
  | nil => simp
  | cons hd tl ih =>
    simp only [List.foldl_cons, ih, lor_eq_zero_iff, List.mem_cons]
    constructor
    · rintro ⟨⟨h1, h2⟩, h3⟩
      refine ⟨h1, fun p hp => ?_⟩
      rcases hp with rfl | hp
      · exact h2
      · exact h3 p hp
    · rintro ⟨h1, h2⟩
      exact ⟨⟨h1, h2 hd (Or.inl rfl)⟩, fun p hp => h2 p (Or.inr hp)⟩

theorem zip_eq_of_forall : ∀ (l1 l2 : List Char), l1.length = l2.length →
    (∀ p ∈ l1.zip l2, p.1 = p.2) → l1 = l2
  | [], [], _, _ => rfl
  | [], _ :: _, hlen, _ => by simp at hlen
  | _ :: _, [], hlen, _ => by simp at hlen
  | a :: l1, b :: l2, hlen, h => by
    have hab : a = b := h (a, b) (by simp [List.zip_cons_cons])
    have htl : l1 = l2 := zip_eq_of_forall l1 l2 (by simpa using hlen)
      (fun p hp => h p (by simp [List.zip_cons_cons, hp]))
    rw [hab, htl]

theorem mem_zip_self {α : Type} :
    ∀ {l : List α} {p : α × α}, p ∈ l.zip l → p.1 = p.2
  | [], p, h => by simp at h
  | a :: l, p, h => by
    rw [List.zip_cons_cons, List.mem_cons] at h
    rcases h with rfl | h
    · rfl
    · exact mem_zip_self h

/-- `constantTimeCompare` answers `true` exactly on equal strings. -/
theorem constantTimeCompare_eq_true_iff (a b : String) :
    constantTimeCompare a b = true ↔ a = b := by
  unfold constantTimeCompare
  by_cases hlen : a.length = b.length
  · rw [if_neg (not_not_intro hlen), beq_iff_eq,
      foldl_or_eq_zero (fun p => p.1.toNat ^^^ p.2.toNat)]
    constructor
    · rintro ⟨-, h⟩
      have hdata : a.data = b.data :=
        zip_eq_of_forall a.data b.data hlen
          (fun p hp => char_eq_of_toNat_eq (Nat.xor_eq_zero.mp (h p hp)))
      cases a; cases b; exact congrArg String.mk hdata
    · rintro rfl
      exact ⟨rfl, fun p hp => by rw [mem_zip_self hp, Nat.xor_self]⟩
  · rw [if_pos hlen]
    exact iff_of_false (by simp) (fun hab => hlen (by rw [hab]))

theorem constantTimeCompare_self (a : String) :
    constantTimeCompare a a = true :=
  (constantTimeCompare_eq_true_iff a a).mpr rfl

theorem constantTimeCompare_eq_false_of_ne {a b : String} (h : a ≠ b) :
    constantTimeCompare a b = false := by
  cases hc : constantTimeCompare a b with
  | false => rfl
  | true => exact absurd ((constantTimeCompare_eq_true_iff a b).mp hc) h

theorem foldl_pair_fst (f : Nat → Char × Char → Nat)
    (l : List (Char × Char)) (r n : Nat) :
    (l.foldl (fun acc p => (f acc.1 p, acc.2 + 1)) (r, n)).1 =
      l.foldl f r := by
  induction l generalizing r n with
  | nil => rfl
  | cons hd tl ih => simp only [List.foldl_cons, ih]

theorem foldl_pair_snd (f : Nat → Char × Char → Nat)
    (l : List (Char × Char)) (r n : Nat) :
    (l.foldl (fun acc p => (f acc.1 p, acc.2 + 1)) (r, n)).2 =
      n + l.length := by
  induction l generalizing r n with
  | nil => rfl
  | cons hd tl ih =>
    simp only [List.foldl_cons, ih, List.length_cons]
    omega

/-- The instrumented comparison computes the same boolean. -/
theorem constantTimeCompareInstr_fst (a b : String) :
    (constantTimeCompareInstr a b).1 = constantTimeCompare a b := by
  unfold constantTimeCompareInstr constantTimeCompare
  by_cases hlen : a.length = b.length
  · rw [if_neg (not_not_intro hlen), if_neg (not_not_intro hlen)]
    simp only [foldl_pair_fst (fun r p => r ||| (p.1.toNat ^^^ p.2.toNat))]
  · rw [if_pos hlen, if_pos hlen]

/-- The loop-iteration count of the comparison is fully determined by
the two lengths: `a.length` iterations on equal lengths, none otherwise. -/
theorem constantTimeCompareInstr_snd (a b : String) :
    (constantTimeCompareInstr a b).2 =
      if a.length = b.length then a.length else 0 := by
  unfold constantTimeCompareInstr
  by_cases hlen : a.length = b.length
  · rw [if_neg (not_not_intro hlen), if_pos hlen]
    simp only [foldl_pair_snd (fun r p => r ||| (p.1.toNat ^^^ p.2.toNat)),
      Nat.zero_add, List.length_zip]
    have hd : a.data.length = b.data.length := hlen
    rw [hd, Nat.min_self]
    exact hd.symm
  · rw [if_pos hlen, if_neg hlen]

/-! ### Claim theorems -/

/-- C1 counterexample: a Pull (GET `/api/sync`) request whose auth
token is not the token derived from the account's salt is answered with
the full data snapshot instead of an authentication error — the GET
handler never reads or verifies the auth-token header.  The claim, as
stated, is therefore false for Pull. -/
theorem claim_C1_counterexample :
    syncGet sampleStore
        { syncCodeHeader := some "SIGNAL-ABCDEF",
          authTokenHeader := some "wrong" }
      = GetResult.ok (pullResponseFields sampleDoc) ∧
    "wrong" ≠ generateAuthToken id "SIGNAL-ABCDEF" sampleDoc.salt := by
  exact ⟨by decide, by decide⟩

/-- C1 (amended): a Push whose auth token differs from the token
derived from the account's salt is rejected with an authentication
error and the store is unchanged; a Pull never writes the store and its
response does not depend on the auth-token header at all (the GET
handler does not verify it). -/
theorem claim_C1_amended (digest : String → String) (store : Store)
    (sc tok : String) (body : PushBody) (now : Nat) (d : SyncedData)
    (hsc : sc ≠ "") (htok : tok ≠ "")
    (hget : Store.get store (blobKey (normalizeSyncCode sc)) = some d)
    (hbad : tok ≠ generateAuthToken digest (normalizeSyncCode sc) d.salt) :
    syncPost digest store
        { syncCodeHeader := some sc, authTokenHeader := some tok,
          body := body } now
      = (store, PostResult.unauthorized "Invalid authentication token") ∧
    ∀ t t' : Option String,
      syncGet store { syncCodeHeader := some sc, authTokenHeader := t }
        = syncGet store { syncCodeHeader := some sc, authTokenHeader := t' } := by
  constructor
  · have hv : verifyAuthToken digest tok (normalizeSyncCode sc) d.salt = false :=
      constantTimeCompare_eq_false_of_ne hbad
    unfold syncPost
    simp only [if_neg hsc, if_neg htok, hget, hv, Bool.false_eq_true,
      if_false]
  · intro t t'
    rfl

/-- C1 amended, witness: the concrete sample store rejects a Push with
a wrong token and keeps the store intact. -/
theorem claim_C1_witness :
    syncPost id sampleStore
        { syncCodeHeader := some "SIGNAL-ABCDEF",
          authTokenHeader := some "wrong", body := emptyBody } 7
      = (sampleStore, PostResult.unauthorized "Invalid authentication token") :=
  (claim_C1_amended id sampleStore "SIGNAL-ABCDEF" "wrong" emptyBody 7
    sampleDoc (by decide) (by decide) (by decide) (by decide)).1

/-- C2: evaluation of the Setup allocation code at the failing input.
Under an existence check where the first nine drawn candidates collide
and the tenth is free, the allocation loop stops on the free tenth
candidate, yet Setup answers the allocation-exhausted error — the
`attempts >= maxAttempts` test cannot tell a break on a free tenth
candidate from true exhaustion.  The claim (and spec §4.2: fail only
when all ten candidates collide, otherwise proceed with the free
candidate) describes the evident intent; the code is off by one. -/
theorem claim_C2_alloc_eval :
    allocateSyncCode c2Exists c2Cand
      = Except.error "Failed to generate unique sync code" ∧
    ((List.range 9).all fun i => c2Exists (c2Cand i)) = true ∧
    c2Exists (c2Cand 9) = false :=
  ⟨rfl, by decide, by decide⟩

/-- C3 counterexample: the snapshot applied by the Client Sync Agent
does not replace the whole local state.  With the same returned
snapshot (empty arrays, `timerState: null`), two different prior local
states lead to different resulting states — the local timer survives
because the handler only assigns a field when its snapshot value is
truthy, and `null` is not. -/
theorem claim_C3_counterexample :
    handleSyncData localWithTimer sampleSyncState nullTimerPayload
      ≠ handleSyncData localCleared sampleSyncState nullTimerPayload ∧
    (handleSyncData localWithTimer sampleSyncState nullTimerPayload).2.timerState
      = runningTimer := by
  exact ⟨by decide, by decide⟩

/-- C3 (amended): on successful Login or Setup the Client Sync Agent
stores the new credentials and replaces each of the five synchronized
fields with the snapshot's value whenever that value is present and
non-null (empty collections included, since they are truthy); a `null`
or absent field — in particular the `null` timer state of an account
that never started a timer — keeps the locally held value instead. -/
theorem claim_C3_amended (localData : ClientData) (newSync : LocalSyncState)
    (data : SyncDataPayload) (ts : List Todo) (rs : List RecurringTask)
    (ps : List PauseLog) (ds : List String)
    (h1 : data.todos = JsField.val ts)
    (h2 : data.recurringTasks = JsField.val rs)
    (h3 : data.pauseLogs = JsField.val ps)
    (h5 : data.recurringAddedDates = JsField.val ds) :
    (∀ tmr : TimerState, data.timerState = JsField.val tmr →
      handleSyncData localData newSync data
        = (newSync, ⟨ts, rs, ps, tmr, ds⟩)) ∧
    (data.timerState = JsField.null →
      handleSyncData localData newSync data
        = (newSync, ⟨ts, rs, ps, localData.timerState, ds⟩)) := by
  constructor
  · intro tmr h4
    simp [handleSyncData, h1, h2, h3, h4, h5]
  · intro h4
    simp [handleSyncData, h1, h2, h3, h4, h5]

/-- C3 amended, witness: applying the concrete null-timer snapshot
keeps the running local timer while adopting every other field. -/
theorem claim_C3_witness :
    handleSyncData localWithTimer sampleSyncState nullTimerPayload
      = (sampleSyncState, ⟨[], [], [], localWithTimer.timerState, []⟩) :=
  (claim_C3_amended localWithTimer sampleSyncState nullTimerPayload
    [] [] [] [] (by decide) (by decide) (by decide) (by decide)).2 (by decide)

/-- C4: for every PIN p and salt s, verifying p against the stored hash
derived from (p, s) succeeds, and verifying any distinct PIN p' fails,
under the hypothesis that the digest is collision-free on the two
concatenated inputs involved. -/
theorem claim_C4_verifyPin (digest : String → String) (p p' s : String)
    (hcoll : digest (p' ++ s) = digest (p ++ s) → p' ++ s = p ++ s)
    (hne : p' ≠ p) :
    verifyPin digest p s (hashPin digest p s) = true ∧
    verifyPin digest p' s (hashPin digest p s) = false := by
  constructor
  · exact constantTimeCompare_self _
  · apply constantTimeCompare_eq_false_of_ne
    intro h
    apply hne
    have happ : p' ++ s = p ++ s := hcoll h
    have hd : p'.data ++ s.data = p.data ++ s.data := by
      have := congrArg String.data happ
      rwa [String.data_append, String.data_append] at this
    have hdd : p'.data = p.data := List.append_cancel_right hd
    cases p'; cases p; exact congrArg String.mk hdd

/-- C4 witness: concrete check under the identity digest (which is
collision-free), with PINs 1234 and 0000 and salt ab. -/
theorem claim_C4_witness :
    verifyPin id "1234" "ab" (hashPin id "1234" "ab") = true ∧
    verifyPin id "0000" "ab" (hashPin id "1234" "ab") = false :=
  claim_C4_verifyPin id "1234" "0000" "ab" (fun h => h) (by decide)

/-- C5: every successful Push writes back a document whose syncCode,
pinHash, salt and createdAt equal those of the previously stored
document; the handler answers success and stores exactly the merged
document, whose only other changes are the data-snapshot fields and
lastSyncedAt. -/
theorem claim_C5_push_preserves_auth_fields (digest : String → String)
    (store : Store) (sc tok : String) (body : PushBody) (now : Nat)
    (d : SyncedData) (hsc : sc ≠ "") (htok : tok ≠ "")
    (hget : Store.get store (blobKey (normalizeSyncCode sc)) = some d)
    (hauth : verifyAuthToken digest tok (normalizeSyncCode sc) d.salt = true) :
    syncPost digest store
        { syncCodeHeader := some sc, authTokenHeader := some tok,
          body := body } now
      = (Store.put store (blobKey (normalizeSyncCode sc))
          (pushMerge d body now), PostResult.ok now) ∧
    (pushMerge d body now).syncCode = d.syncCode ∧
    (pushMerge d body now).pinHash = d.pinHash ∧
    (pushMerge d body now).salt = d.salt ∧
    (pushMerge d body now).createdAt = d.createdAt := by
  refine ⟨?_, rfl, rfl, rfl, rfl⟩
  unfold syncPost
  simp only [if_neg hsc, if_neg htok, hget, hauth, if_true]

/-- C5 witness: a concrete successful Push against the sample store,
with the correctly derived token, stores the merged document and the
merged document keeps all four immutable fields. -/
theorem claim_C5_witness :
    syncPost id sampleStore
        { syncCodeHeader := some "SIGNAL-ABCDEF",
          authTokenHeader := some "SIGNAL-ABCDEFs0auth",
          body := emptyBody } 9
      = (Store.put sampleStore (blobKey (normalizeSyncCode "SIGNAL-ABCDEF"))
          (pushMerge sampleDoc emptyBody 9), PostResult.ok 9) ∧
    (pushMerge sampleDoc emptyBody 9).pinHash = sampleDoc.pinHash :=
  ⟨(claim_C5_push_preserves_auth_fields id sampleStore "SIGNAL-ABCDEF"
      "SIGNAL-ABCDEFs0auth" emptyBody 9 sampleDoc (by decide) (by decide)
      (by decide) (by decide)).1,
   (claim_C5_push_preserves_auth_fields id sampleStore "SIGNAL-ABCDEF"
      "SIGNAL-ABCDEFs0auth" emptyBody 9 sampleDoc (by decide) (by decide)
      (by decide) (by decide)).2.2.1⟩

/-- C6: a Push whose body contains only the todos field (the four other
snapshot fields absent) leaves recurringTasks, pauseLogs, timerState and
recurringAddedDates of the stored document unchanged. -/
theorem claim_C6_push_only_todos (d : SyncedData) (body : PushBody)
    (now : Nat) (ts : List SyncedTodo)
    (h0 : body.todos = JsField.val ts)
    (h1 : body.recurringTasks = JsField.undef)
    (h2 : body.pauseLogs = JsField.undef)
    (h3 : body.timerState = JsField.undef)
    (h4 : body.recurringAddedDates = JsField.undef) :
    (pushMerge d body now).todos = ts ∧
    (pushMerge d body now).recurringTasks = d.recurringTasks ∧
    (pushMerge d body now).pauseLogs = d.pauseLogs ∧
    (pushMerge d body now).timerState = d.timerState ∧
    (pushMerge d body now).recurringAddedDates = d.recurringAddedDates := by
  simp [pushMerge, h0, h1, h2, h3, h4]

/-- C6 witness: pushing only a todos list over the sample document. -/
theorem claim_C6_witness :
    (pushMerge sampleDoc
      { todos := JsField.val [], recurringTasks := JsField.undef,
        pauseLogs := JsField.undef, timerState := JsField.undef,
        recurringAddedDates := JsField.undef } 9).timerState
      = sampleDoc.timerState :=
  (claim_C6_push_only_todos sampleDoc
    { todos := JsField.val [], recurringTasks := JsField.undef,
      pauseLogs := JsField.undef, timerState := JsField.undef,
      recurringAddedDates := JsField.undef } 9 []
    (by decide) (by decide) (by decide) (by decide) (by decide)).2.2.2.1

/-- C7: Login never writes to the Account Store — for every store and
request the store after the Login handler equals the store before it —
and running Login twice in a row with no intervening Push produces the
identical response, in particular the same lastSyncedAt. -/
theorem claim_C7_login_readonly (digest : String → String) (store : Store)
    (req : LoginReq) :
    (loginPost digest store req).1 = store ∧
    loginPost digest (loginPost digest store req).1 req
      = loginPost digest store req := by
  have h1 : (loginPost digest store req).1 = store := by
    simp only [loginPost]
    split
    · rfl
    · split
      · rfl
      · split
        · rfl
        · rfl
  exact ⟨h1, by rw [h1]⟩

theorem pullResponseFields_keys (d : SyncedData) :
    "pinHash" ∉ (pullResponseFields d).map Prod.fst ∧
    "salt" ∉ (pullResponseFields d).map Prod.fst := by
  constructor <;>
    · simp only [pullResponseFields, List.map_cons, List.map_nil]
      decide

theorem loginResponseData_keys (d : SyncedData) :
    "pinHash" ∉ (loginResponseData d).map Prod.fst ∧
    "salt" ∉ (loginResponseData d).map Prod.fst := by
  constructor <;>
    · simp only [loginResponseData, List.map_cons, List.map_nil]
      decide

/-- C8: every successful Pull response and every successful Login
response is built without a pinHash field and without a salt field —
the keys of the returned objects never include them. -/
theorem claim_C8_no_secret_fields :
    (∀ (store : Store) (req : GetReq) (fields : List (String × FieldVal)),
      syncGet store req = GetResult.ok fields →
      "pinHash" ∉ fields.map Prod.fst ∧ "salt" ∉ fields.map Prod.fst) ∧
    (∀ (digest : String → String) (store : Store) (req : LoginReq)
      (r : LoginOk), (loginPost digest store req).2 = LoginResult.ok r →
      "pinHash" ∉ r.dataFields.map Prod.fst ∧
      "salt" ∉ r.dataFields.map Prod.fst) := by
  constructor
  · intro store req fields h
    unfold syncGet at h
    cases hh : req.syncCodeHeader with
    | none => rw [hh] at h; simp at h
    | some sc =>
      simp only [hh] at h
      by_cases hsc : sc = ""
      · rw [if_pos hsc] at h; simp at h
      · rw [if_neg hsc] at h
        cases hg : Store.get store (blobKey (normalizeSyncCode sc)) with
        | none => simp only [hg] at h; simp at h
        | some d =>
          simp only [hg, GetResult.ok.injEq] at h
          rw [← h]
          exact pullResponseFields_keys d
  · intro digest store req r h
    simp only [loginPost] at h
    split at h
    · simp at h
    · split at h
      · simp at h
      · split at h
        · rename_i d hd hv
          simp only [LoginResult.ok.injEq] at h
          rw [← h]
          exact loginResponseData_keys d
        · simp at h

/-- C8 witness: a concrete successful Pull and Login against the
sample store return objects whose keys exclude pinHash and salt. -/
theorem claim_C8_witness :
    ("pinHash" ∉ (pullResponseFields sampleDoc).map Prod.fst ∧
     "salt" ∉ (pullResponseFields sampleDoc).map Prod.fst) ∧
    ("pinHash" ∉ (loginResponseData sampleDoc).map Prod.fst ∧
     "salt" ∉ (loginResponseData sampleDoc).map Prod.fst) :=
  ⟨claim_C8_no_secret_fields.1 sampleStore
    { syncCodeHeader := some "SIGNAL-ABCDEF", authTokenHeader := none }
    (pullResponseFields sampleDoc) (by decide),
   claim_C8_no_secret_fields.2 id sampleStore
    { syncCode := "SIGNAL-ABCDEF", pin := "1234" }
    { syncCode := "SIGNAL-ABCDEF",
      authToken := generateAuthToken id "SIGNAL-ABCDEF" "s0",
      dataFields := loginResponseData sampleDoc } (by decide)⟩

/-- C9: the comparison of verifyPin and verifyAuthToken executes a
number of loop iterations fully determined by the input lengths — for
equal lengths it is the whole length, independent of where the first
differing character sits — and on a length mismatch it returns false
(the embedding is a total function, so no exception is possible). -/
theorem claim_C9_constant_time (a b c e : String) :
    ((constantTimeCompareInstr a b).1 = constantTimeCompare a b) ∧
    (a.length = b.length → (constantTimeCompareInstr a b).2 = a.length) ∧
    (a.length = c.length → b.length = e.length →
      (constantTimeCompareInstr a b).2 = (constantTimeCompareInstr c e).2) ∧
    (a.length ≠ b.length → constantTimeCompare a b = false) := by
  refine ⟨constantTimeCompareInstr_fst a b, ?_, ?_, ?_⟩
  · intro h
    rw [constantTimeCompareInstr_snd, if_pos h]
  · intro h1 h2
    rw [constantTimeCompareInstr_snd, constantTimeCompareInstr_snd,
      h1, h2]
  · intro h
    unfold constantTimeCompare
    rw [if_pos h]

/-- C9 witness: two equal-length pairs differing at different first
positions take the same number of iterations, and a length mismatch
answers false. -/
theorem claim_C9_witness :
    (constantTimeCompareInstr "Xbcd" "abcd").2
      = (constantTimeCompareInstr "abcX" "abcd").2 ∧
    constantTimeCompare "abc" "abcd" = false :=
  ⟨(claim_C9_constant_time "Xbcd" "abcd" "abcX" "abcd").2.2.1
      (by decide) (by decide),
   (claim_C9_constant_time "abc" "abcd" "" "").2.2.2 (by decide)⟩

/-- C10: Push treats an explicit null asymmetrically — a null todos,
recurringTasks, pauseLogs or recurringAddedDates field is falsy for the
or-else merge and the stored value is kept, while a null timerState
passes the undefined-test and overwrites the stored timer with null. -/
theorem claim_C10_null_asymmetry (d : SyncedData) (body : PushBody)
    (now : Nat) :
    (body.todos = JsField.null →
      (pushMerge d body now).todos = d.todos) ∧
    (body.recurringTasks = JsField.null →
      (pushMerge d body now).recurringTasks = d.recurringTasks) ∧
    (body.pauseLogs = JsField.null →
      (pushMerge d body now).pauseLogs = d.pauseLogs) ∧
    (body.recurringAddedDates = JsField.null →
      (pushMerge d body now).recurringAddedDates = d.recurringAddedDates) ∧
    (body.timerState = JsField.null →
      (pushMerge d body now).timerState = none) := by
  refine ⟨fun h => ?_, fun h => ?_, fun h => ?_, fun h => ?_, fun h => ?_⟩ <;>
    simp [pushMerge, h]

/-- C10 witness: a Push body with every field explicitly null keeps the
four array fields and clears the timer. -/
theorem claim_C10_witness :
    (pushMerge sampleDoc
      { todos := JsField.null, recurringTasks := JsField.null,
        pauseLogs := JsField.null, timerState := JsField.null,
        recurringAddedDates := JsField.null } 9).todos = sampleDoc.todos ∧
    (pushMerge sampleDoc
      { todos := JsField.null, recurringTasks := JsField.null,
        pauseLogs := JsField.null, timerState := JsField.null,
        recurringAddedDates := JsField.null } 9).timerState = none :=
  ⟨(claim_C10_null_asymmetry sampleDoc
      { todos := JsField.null, recurringTasks := JsField.null,
        pauseLogs := JsField.null, timerState := JsField.null,
        recurringAddedDates := JsField.null } 9).1 (by decide),
   (claim_C10_null_asymmetry sampleDoc
      { todos := JsField.null, recurringTasks := JsField.null,
        pauseLogs := JsField.null, timerState := JsField.null,
        recurringAddedDates := JsField.null } 9).2.2.2.2 (by decide)⟩

end SignalSync
